import Mathlib

/-!
FloatingToolbox: placement of the floating toolbox overlay.

A shallow embedding of `src/core/gui/FloatingToolbox.cpp`.

* C++ `int` / `gint` values are modelled as `Int`.  Signed overflow is undefined
  behaviour in C++, so the embedding describes the executions in which no
  intermediate value leaves the range of `int`.
* `int / int` truncates towards zero in C++; it is `Int.tdiv` here.
* Widgets are identified by opaque handles (`Nat`).
* What the GUI toolkit reports to the code (allocations, preferred sizes, the
  result of a coordinate translation) is an explicit argument of the function
  that asks for it.
-/

/-- The three placement states (`floatingToolboxState`). -/
inductive FloatingToolboxState where
  | recalcSize
  | noChange
  | configuration
  deriving DecidableEq, Repr

/-- A `GdkRectangle` / `GtkAllocation`: `x`, `y`, `width`, `height`, all `int`. -/
structure GdkRectangle where
  x : Int
  y : Int
  width : Int
  height : Int
  deriving DecidableEq, Repr

/-- A `GtkRequisition`: the preferred `width` and `height` of a widget. -/
structure GtkRequisition where
  width : Int
  height : Int
  deriving DecidableEq, Repr

/-- Constants that `FloatingToolbox.cpp` takes from headers (`SettingsEnums.h`,
`ToolEnums.h`, `ToolbarDefinitions.h`); they are parameters of the embedding. -/
structure Constants where
  BUTTON_COUNT : Nat
  TOOL_FLOATING_TOOLBOX : Int
  TBFloatFirst : Nat
  TBFloatLast : Nat

/-- What the code reads through `mainWindow`: the settings of the control and the
toolbars named in `TOOLBAR_DEFINITIONS`. -/
structure MainWindow where
  /-- The value of `settings->getButtonConfig(id)->getAction()`. -/
  buttonAction : Nat → Int
  /-- The value of `settings->getDoActionOnStrokeFiltered()`. -/
  doActionOnStrokeFiltered : Bool
  /-- The value of `settings->getStrokeFilterEnabled()`. -/
  strokeFilterEnabled : Bool
  /-- The value of `gtk_toolbar_get_n_items` for the toolbar
  `TOOLBAR_DEFINITIONS[index].guiName`. -/
  toolbarItems : Nat → Int

/-- The members of a `FloatingToolbox` that the code mutates, together with the
visibility of the three widgets it shows and hides: the toolbox itself and the
widgets `labelFloatingToolbox` and `showIfEmpty` inside it. -/
structure FloatingToolbox where
  /-- The handle of the managed widget (`this->floatingToolbox`). -/
  floatingToolbox : Nat
  floatingToolboxX : Int
  floatingToolboxY : Int
  floatingToolboxState : FloatingToolboxState
  /-- Visibility of `this->floatingToolbox`. -/
  toolboxVisible : Bool
  /-- Visibility of the widget `labelFloatingToolbox`. -/
  labelVisible : Bool
  /-- Visibility of the widget `showIfEmpty`. -/
  showIfEmptyVisible : Bool
  deriving DecidableEq, Repr

/-- The constructor's member initialisers: anchor (200, 200), state `recalcSize`.
The visibility of the widgets is whatever the UI definition gave them. -/
def FloatingToolbox.new (widget : Nat) (toolboxVisible labelVisible showIfEmptyVisible : Bool) :
    FloatingToolbox :=
  { floatingToolbox := widget
    floatingToolboxX := 200
    floatingToolboxY := 200
    floatingToolboxState := FloatingToolboxState.recalcSize
    toolboxVisible := toolboxVisible
    labelVisible := labelVisible
    showIfEmptyVisible := showIfEmptyVisible }

/-- The loop `for (unsigned int id = 0; id < BUTTON_COUNT; id++)` of
`floatingToolboxActivated`, entered at `id` with `remaining = BUTTON_COUNT - id`
iterations to go: `true` as soon as a button has the action
`TOOL_FLOATING_TOOLBOX`, `false` when the loop runs to its end. -/
def buttonLoop (c : Constants) (mw : MainWindow) : Nat → Nat → Bool
  | _, 0 => false
  | id, remaining + 1 =>
    if mw.buttonAction id = c.TOOL_FLOATING_TOOLBOX then true
    else buttonLoop c mw (id + 1) remaining

/-- The loop `for (int index = TBFloatFirst; index <= TBFloatLast; index++)` of
`countWidgets`, entered at `index` with `remaining` iterations to go and the
running total `count`. -/
def countWidgetsLoop (mw : MainWindow) : Nat → Nat → Int → Int
  | _, 0, count => count
  | index, remaining + 1, count =>
    countWidgetsLoop mw (index + 1) remaining (count + mw.toolbarItems index)

/-- `FloatingToolbox::countWidgets`: the sum of the item counts of the toolbars
`TBFloatFirst .. TBFloatLast` (both included). -/
def countWidgets (c : Constants) (mw : MainWindow) : Int :=
  countWidgetsLoop mw c.TBFloatFirst (c.TBFloatLast + 1 - c.TBFloatFirst) 0

/-- `FloatingToolbox::floatingToolboxActivated`. -/
def floatingToolboxActivated (c : Constants) (mw : MainWindow) : Bool :=
  if buttonLoop c mw 0 c.BUTTON_COUNT then true
  else if mw.doActionOnStrokeFiltered && mw.strokeFilterEnabled then true
  else if countWidgets c mw > 0 then true
  else false

/-- `FloatingToolbox::show()`: hide the toolbox and show it again with everything
inside it (`gtk_widget_show_all`), then hide the label unless configuring, and
hide the `showIfEmpty` placeholder when configuring or when the toolbox holds
something. -/
def FloatingToolbox.show (c : Constants) (mw : MainWindow) (self : FloatingToolbox) :
    FloatingToolbox :=
  let s1 := { self with toolboxVisible := false }
  let s2 := { s1 with toolboxVisible := true, labelVisible := true, showIfEmptyVisible := true }
  let s3 :=
    if s2.floatingToolboxState ≠ FloatingToolboxState.configuration then
      { s2 with labelVisible := false }
    else s2
  if s3.floatingToolboxState = FloatingToolboxState.configuration ∨ countWidgets c mw > 0 then
    { s3 with showIfEmptyVisible := false }
  else s3

/-- `FloatingToolbox::show(int x, int y)`. `translated` is what
`gtk_widget_translate_coordinates` stores for `(x, y)` from the toplevel to the
overlay, or `none` when it fails and leaves the anchor as it is. -/
def FloatingToolbox.showAt (c : Constants) (mw : MainWindow) (translated : Option (Int × Int))
    (self : FloatingToolbox) : FloatingToolbox :=
  let s1 :=
    match translated with
    | some (ox, oy) => { self with floatingToolboxX := ox, floatingToolboxY := oy }
    | none => self
  s1.show c mw

/-- `FloatingToolbox::showForConfiguration`. `translated` is what
`gtk_widget_translate_coordinates` stores for the origin of `boxContents` in the
coordinates of its toplevel, or `none` when it fails and `wx`, `wy` keep their
initial value 0. -/
def FloatingToolbox.showForConfiguration (c : Constants) (mw : MainWindow)
    (translated : Option (Int × Int)) (self : FloatingToolbox) : FloatingToolbox :=
  if floatingToolboxActivated c mw then
    let w : Int × Int :=
      match translated with
      | some p => p
      | none => (0, 0)
    let s1 := { self with floatingToolboxX := w.1 + 40 }
    let s2 := { s1 with floatingToolboxY := w.2 + 40 }
    let s3 := { s2 with floatingToolboxState := FloatingToolboxState.configuration }
    s3.show c mw
  else self

/-- `FloatingToolbox::hide`. -/
def FloatingToolbox.hide (self : FloatingToolbox) : FloatingToolbox :=
  let s1 :=
    if self.floatingToolboxState = FloatingToolboxState.configuration then
      { self with floatingToolboxState := FloatingToolboxState.recalcSize }
    else self
  { s1 with toolboxVisible := false }

/-- `FloatingToolbox::flagRecalculateSizeRequired`. -/
def FloatingToolbox.flagRecalculateSizeRequired (self : FloatingToolbox) : FloatingToolbox :=
  { self with floatingToolboxState := FloatingToolboxState.recalcSize }

/-- `FloatingToolbox::handleLeaveFloatingToolbox`, called for the widget `widget`. -/
def handleLeaveFloatingToolbox (widget : Nat) (self : FloatingToolbox) : FloatingToolbox :=
  if widget = self.floatingToolbox then
    if self.floatingToolboxState ≠ FloatingToolboxState.configuration then self.hide
    else self
  else self

/-- Lines 151-160 of `getOverlayPosition`: the allocation starts as the current
allocation of the widget (`current`); unless the state is `noChange` and the
current height is at least 2, its width and height are replaced by the natural
(preferred) size. -/
def sizeStep (state : FloatingToolboxState) (current : GdkRectangle) (natural : GtkRequisition) :
    GdkRectangle :=
  if state ≠ FloatingToolboxState.noChange ∨ current.height < 2 then
    { current with width := natural.width, height := natural.height }
  else current

/-- Lines 162-177 of `getOverlayPosition`: the `switch` on the placement state.
Returns the allocation before clamping and the updated object. -/
def placeStep (self : FloatingToolbox) (allocation : GdkRectangle) :
    GdkRectangle × FloatingToolbox :=
  match self.floatingToolboxState with
  | FloatingToolboxState.recalcSize | FloatingToolboxState.noChange =>
    let a1 := { allocation with x := self.floatingToolboxX - Int.tdiv allocation.width 2 }
    let a2 := { a1 with y := self.floatingToolboxY - Int.tdiv a1.height 2 }
    (a2, { self with floatingToolboxState := FloatingToolboxState.noChange })
  | FloatingToolboxState.configuration =>
    let a1 := { allocation with x := self.floatingToolboxX }
    let a2 := { a1 with y := self.floatingToolboxY }
    let a3 := { a2 with width := max (a2.width + 32) 50 }
    let a4 := { a3 with height := max a3.height 50 }
    (a4, self)

/-- Lines 179-208 of `getOverlayPosition`: keep the allocation inside
`visibleRect`, the allocation of the overlay. The four tests run in the order
left, top, right, bottom. -/
def clampStep (visibleRect : GdkRectangle) (allocation : GdkRectangle) : GdkRectangle :=
  let leftBound := visibleRect.x
  let a1 := if allocation.x < leftBound then { allocation with x := leftBound } else allocation
  let topBound := visibleRect.y
  let a2 := if a1.y < topBound then { a1 with y := topBound } else a1
  let rightBound := visibleRect.width
  let rightCurrent := a2.x + a2.width
  let a3 :=
    if rightCurrent > rightBound then { a2 with x := a2.x - (rightCurrent - rightBound) } else a2
  let bottomBound := visibleRect.height
  let bottomCurrent := a3.y + a3.height
  if bottomCurrent > bottomBound then { a3 with y := a3.y - (bottomCurrent - bottomBound) } else a3

/-- The result of a call of `getOverlayPosition`: the returned `gboolean`, the
rectangle left in `*allocation`, and the object afterwards. -/
structure OverlayPosition where
  handled : Bool
  allocation : GdkRectangle
  self : FloatingToolbox
  deriving DecidableEq, Repr

/-- `FloatingToolbox::getOverlayPosition`.
* `visibleRect`: the allocation of the overlay (`gtk_widget_get_allocation`);
* `widget`: the widget the toolkit asks about;
* `current`: the current allocation of `widget`;
* `natural`: the natural size of `widget` (`gtk_widget_get_preferred_size`);
* `allocation`: the value of `*allocation` on entry, left as it is when the
  widget is not the managed one. -/
def getOverlayPosition (visibleRect : GdkRectangle) (widget : Nat) (current : GdkRectangle)
    (natural : GtkRequisition) (allocation : GdkRectangle) (self : FloatingToolbox) :
    OverlayPosition :=
  if widget = self.floatingToolbox then
    let sized := sizeStep self.floatingToolboxState current natural
    let placed := placeStep self sized
    { handled := true, allocation := clampStep visibleRect placed.1, self := placed.2 }
  else { handled := false, allocation := allocation, self := self }

/-! ## Properties of the clamping step -/

theorem clampStep_width (visibleRect allocation : GdkRectangle) :
    (clampStep visibleRect allocation).width = allocation.width := by
  unfold clampStep
  simp only []
  split_ifs <;> rfl

theorem clampStep_height (visibleRect allocation : GdkRectangle) :
    (clampStep visibleRect allocation).height = allocation.height := by
  unfold clampStep
  simp only []
  split_ifs <;> rfl

/-- The horizontal position after clamping: the larger of the position and the
left bound, moved left by the overshoot over `visibleRect.width` if any. -/
theorem clampStep_x (visibleRect allocation : GdkRectangle) :
    (clampStep visibleRect allocation).x =
      if max allocation.x visibleRect.x + allocation.width > visibleRect.width then
        visibleRect.width - allocation.width
      else max allocation.x visibleRect.x := by
  unfold clampStep
  simp only []
  split_ifs <;> simp_all <;> omega

/-- The vertical position after clamping: the larger of the position and the top
bound, moved up by the overshoot over `visibleRect.height` if any. -/
theorem clampStep_y (visibleRect allocation : GdkRectangle) :
    (clampStep visibleRect allocation).y =
      if max allocation.y visibleRect.y + allocation.height > visibleRect.height then
        visibleRect.height - allocation.height
      else max allocation.y visibleRect.y := by
  unfold clampStep
  simp only []
  split_ifs <;> simp_all <;> omega

/-- C9: for a container whose origin is (0, 0) and an allocation no wider and no
higher than the container, the clamping step returns a rectangle that lies
inside the container, and leaves the width and the height as they were. -/
theorem clampStep_inside_origin_container (visibleRect allocation : GdkRectangle)
    (hx : visibleRect.x = 0) (hy : visibleRect.y = 0)
    (hw : allocation.width ≤ visibleRect.width)
    (hh : allocation.height ≤ visibleRect.height) :
    0 ≤ (clampStep visibleRect allocation).x ∧
    0 ≤ (clampStep visibleRect allocation).y ∧
    (clampStep visibleRect allocation).x + (clampStep visibleRect allocation).width
      ≤ visibleRect.width ∧
    (clampStep visibleRect allocation).y + (clampStep visibleRect allocation).height
      ≤ visibleRect.height ∧
    (clampStep visibleRect allocation).width = allocation.width ∧
    (clampStep visibleRect allocation).height = allocation.height := by
  rw [clampStep_x, clampStep_y, clampStep_width, clampStep_height, hx, hy]
  refine ⟨?_, ?_, ?_, ?_, rfl, rfl⟩ <;> split_ifs <;> omega

/-- An instance of C9: container (0, 0, 800, 600), allocation (780, 10, 92, 50). -/
theorem clampStep_inside_origin_container_witness :
    (780 : Int) + 92 > 800 ∧
    0 ≤ (clampStep ⟨0, 0, 800, 600⟩ ⟨780, 10, 92, 50⟩).x ∧
    0 ≤ (clampStep ⟨0, 0, 800, 600⟩ ⟨780, 10, 92, 50⟩).y ∧
    (clampStep ⟨0, 0, 800, 600⟩ ⟨780, 10, 92, 50⟩).x +
      (clampStep ⟨0, 0, 800, 600⟩ ⟨780, 10, 92, 50⟩).width ≤ 800 ∧
    (clampStep ⟨0, 0, 800, 600⟩ ⟨780, 10, 92, 50⟩).y +
      (clampStep ⟨0, 0, 800, 600⟩ ⟨780, 10, 92, 50⟩).height ≤ 600 ∧
    (clampStep ⟨0, 0, 800, 600⟩ ⟨780, 10, 92, 50⟩).width = 92 ∧
    (clampStep ⟨0, 0, 800, 600⟩ ⟨780, 10, 92, 50⟩).height = 50 :=
  ⟨by decide,
    clampStep_inside_origin_container ⟨0, 0, 800, 600⟩ ⟨780, 10, 92, 50⟩ rfl rfl
      (by decide) (by decide)⟩

/-- C10: whatever the container and the allocation, the rectangle returned by the
clamping step ends at or before `visibleRect.width` and `visibleRect.height`;
when the allocation does not fit between the left bound and `visibleRect.width`
(the top bound and `visibleRect.height`), it is the left (top) bound that the
result violates. -/
theorem clampStep_right_bottom_priority (visibleRect allocation : GdkRectangle) :
    (clampStep visibleRect allocation).x + (clampStep visibleRect allocation).width
      ≤ visibleRect.width ∧
    (clampStep visibleRect allocation).y + (clampStep visibleRect allocation).height
      ≤ visibleRect.height ∧
    (visibleRect.width < visibleRect.x + allocation.width →
      (clampStep visibleRect allocation).x < visibleRect.x) ∧
    (visibleRect.height < visibleRect.y + allocation.height →
      (clampStep visibleRect allocation).y < visibleRect.y) := by
  rw [clampStep_x, clampStep_y, clampStep_width, clampStep_height]
  refine ⟨?_, ?_, ?_, ?_⟩ <;> split_ifs <;> omega

/-- An instance of C10 with an allocation wider and higher than the container:
container (5, 5, 100, 80), allocation (20, 20, 300, 200) gives (-200, -120, 300, 200). -/
theorem clampStep_right_bottom_priority_witness :
    clampStep ⟨5, 5, 100, 80⟩ ⟨20, 20, 300, 200⟩ = ⟨-200, -120, 300, 200⟩ ∧
    (clampStep ⟨5, 5, 100, 80⟩ ⟨20, 20, 300, 200⟩).x < 5 ∧
    (clampStep ⟨5, 5, 100, 80⟩ ⟨20, 20, 300, 200⟩).y < 5 :=
  ⟨by decide,
    (clampStep_right_bottom_priority ⟨5, 5, 100, 80⟩ ⟨20, 20, 300, 200⟩).2.2.1 (by decide),
    (clampStep_right_bottom_priority ⟨5, 5, 100, 80⟩ ⟨20, 20, 300, 200⟩).2.2.2 (by decide)⟩

/-! ## The layout callback -/

/-- For the managed widget `getOverlayPosition` is the size step, then the
`switch` on the state, then the clamping step, and it returns `true`. -/
theorem getOverlayPosition_managed (visibleRect current : GdkRectangle) (natural : GtkRequisition)
    (allocation : GdkRectangle) (self : FloatingToolbox) :
    getOverlayPosition visibleRect self.floatingToolbox current natural allocation self =
      { handled := true
        allocation :=
          clampStep visibleRect
            (placeStep self (sizeStep self.floatingToolboxState current natural)).1
        self := (placeStep self (sizeStep self.floatingToolboxState current natural)).2 } := by
  simp [getOverlayPosition]

/-- For any other widget `getOverlayPosition` returns `false` and changes nothing. -/
theorem getOverlayPosition_other (visibleRect current : GdkRectangle) (natural : GtkRequisition)
    (allocation : GdkRectangle) (self : FloatingToolbox) (widget : Nat)
    (h : widget ≠ self.floatingToolbox) :
    getOverlayPosition visibleRect widget current natural allocation self =
      { handled := false, allocation := allocation, self := self } := by
  simp [getOverlayPosition, h]

/-- C1 (as amended): for the managed widget, in any state, with any anchor and any
natural size, if the returned allocation `A` fits between the container's origin
and its width and height (`C.x + A.width ≤ C.width`, `C.y + A.height ≤ C.height`)
then `A.x ≥ C.x`, `A.y ≥ C.y`, `A.x + A.width ≤ C.width` and
`A.y + A.height ≤ C.height`. -/
theorem getOverlayPosition_within_container (visibleRect current : GdkRectangle)
    (natural : GtkRequisition) (allocation : GdkRectangle) (self : FloatingToolbox)
    (hw : visibleRect.x +
        (getOverlayPosition visibleRect self.floatingToolbox current natural allocation
          self).allocation.width ≤ visibleRect.width)
    (hh : visibleRect.y +
        (getOverlayPosition visibleRect self.floatingToolbox current natural allocation
          self).allocation.height ≤ visibleRect.height) :
    visibleRect.x ≤
      (getOverlayPosition visibleRect self.floatingToolbox current natural allocation
        self).allocation.x ∧
    visibleRect.y ≤
      (getOverlayPosition visibleRect self.floatingToolbox current natural allocation
        self).allocation.y ∧
    (getOverlayPosition visibleRect self.floatingToolbox current natural allocation
        self).allocation.x +
      (getOverlayPosition visibleRect self.floatingToolbox current natural allocation
        self).allocation.width ≤ visibleRect.width ∧
    (getOverlayPosition visibleRect self.floatingToolbox current natural allocation
        self).allocation.y +
      (getOverlayPosition visibleRect self.floatingToolbox current natural allocation
        self).allocation.height ≤ visibleRect.height := by
  rw [getOverlayPosition_managed] at hw hh ⊢
  simp only [clampStep_width, clampStep_height] at hw hh ⊢
  rw [clampStep_x, clampStep_y]
  refine ⟨?_, ?_, ?_, ?_⟩ <;> split_ifs <;> omega

/-- An instance of C1 as amended: container (10, 20, 800, 600), state
`recalcSize`, anchor (795, 5), natural size 100 x 40: the result is
(700, 20, 100, 40). -/
theorem getOverlayPosition_within_container_witness :
    (getOverlayPosition ⟨10, 20, 800, 600⟩ 7 ⟨0, 0, 1, 1⟩ ⟨100, 40⟩ ⟨0, 0, 0, 0⟩
      ⟨7, 795, 5, FloatingToolboxState.recalcSize, true, false, false⟩).allocation
      = ⟨700, 20, 100, 40⟩ ∧
    ((10 : Int) ≤
      (getOverlayPosition ⟨10, 20, 800, 600⟩ 7 ⟨0, 0, 1, 1⟩ ⟨100, 40⟩ ⟨0, 0, 0, 0⟩
        ⟨7, 795, 5, FloatingToolboxState.recalcSize, true, false, false⟩).allocation.x ∧
    (20 : Int) ≤
      (getOverlayPosition ⟨10, 20, 800, 600⟩ 7 ⟨0, 0, 1, 1⟩ ⟨100, 40⟩ ⟨0, 0, 0, 0⟩
        ⟨7, 795, 5, FloatingToolboxState.recalcSize, true, false, false⟩).allocation.y ∧
    (getOverlayPosition ⟨10, 20, 800, 600⟩ 7 ⟨0, 0, 1, 1⟩ ⟨100, 40⟩ ⟨0, 0, 0, 0⟩
        ⟨7, 795, 5, FloatingToolboxState.recalcSize, true, false, false⟩).allocation.x +
      (getOverlayPosition ⟨10, 20, 800, 600⟩ 7 ⟨0, 0, 1, 1⟩ ⟨100, 40⟩ ⟨0, 0, 0, 0⟩
        ⟨7, 795, 5, FloatingToolboxState.recalcSize, true, false, false⟩).allocation.width
      ≤ 800 ∧
    (getOverlayPosition ⟨10, 20, 800, 600⟩ 7 ⟨0, 0, 1, 1⟩ ⟨100, 40⟩ ⟨0, 0, 0, 0⟩
        ⟨7, 795, 5, FloatingToolboxState.recalcSize, true, false, false⟩).allocation.y +
      (getOverlayPosition ⟨10, 20, 800, 600⟩ 7 ⟨0, 0, 1, 1⟩ ⟨100, 40⟩ ⟨0, 0, 0, 0⟩
        ⟨7, 795, 5, FloatingToolboxState.recalcSize, true, false, false⟩).allocation.height
      ≤ 600) :=
  ⟨by decide,
    getOverlayPosition_within_container ⟨10, 20, 800, 600⟩ ⟨0, 0, 1, 1⟩ ⟨100, 40⟩ ⟨0, 0, 0, 0⟩
      ⟨7, 795, 5, FloatingToolboxState.recalcSize, true, false, false⟩
      (by decide) (by decide)⟩

/-- C1 fails as stated: container (10, 0, 100, 100), state `recalcSize`, anchor
(50, 50), natural size 100 x 40. The container is as wide and as high as the
returned allocation (100 x 40), yet the allocation returned is (0, 30, 100, 40),
whose `x = 0` is below the container's `x = 10`. -/
theorem getOverlayPosition_offset_container_counterexample :
    (getOverlayPosition ⟨10, 0, 100, 100⟩ 7 ⟨0, 0, 1, 1⟩ ⟨100, 40⟩ ⟨0, 0, 0, 0⟩
      ⟨7, 50, 50, FloatingToolboxState.recalcSize, true, false, false⟩).allocation
      = ⟨0, 30, 100, 40⟩ ∧
    (100 : Int) ≥
      (getOverlayPosition ⟨10, 0, 100, 100⟩ 7 ⟨0, 0, 1, 1⟩ ⟨100, 40⟩ ⟨0, 0, 0, 0⟩
        ⟨7, 50, 50, FloatingToolboxState.recalcSize, true, false, false⟩).allocation.width ∧
    (100 : Int) ≥
      (getOverlayPosition ⟨10, 0, 100, 100⟩ 7 ⟨0, 0, 1, 1⟩ ⟨100, 40⟩ ⟨0, 0, 0, 0⟩
        ⟨7, 50, 50, FloatingToolboxState.recalcSize, true, false, false⟩).allocation.height ∧
    ¬ ((getOverlayPosition ⟨10, 0, 100, 100⟩ 7 ⟨0, 0, 1, 1⟩ ⟨100, 40⟩ ⟨0, 0, 0, 0⟩
        ⟨7, 50, 50, FloatingToolboxState.recalcSize, true, false, false⟩).allocation.x
      ≥ 10) := by
  decide

/-- C6: for the managed widget in state `recalcSize` or `noChange`, the rectangle
before clamping is centred on the anchor (`x = anchorX - width / 2`,
`y = anchorY - height / 2`, truncating division, width and height from the size
step), the returned rectangle is its clamped form, the call returns `true`, and
the state afterwards is `noChange` (nothing else of the object changes). -/
theorem getOverlayPosition_centered (visibleRect current : GdkRectangle)
    (natural : GtkRequisition) (allocation : GdkRectangle) (self : FloatingToolbox)
    (h : self.floatingToolboxState = FloatingToolboxState.recalcSize ∨
      self.floatingToolboxState = FloatingToolboxState.noChange) :
    (placeStep self (sizeStep self.floatingToolboxState current natural)).1 =
      { x := self.floatingToolboxX -
          Int.tdiv (sizeStep self.floatingToolboxState current natural).width 2
        y := self.floatingToolboxY -
          Int.tdiv (sizeStep self.floatingToolboxState current natural).height 2
        width := (sizeStep self.floatingToolboxState current natural).width
        height := (sizeStep self.floatingToolboxState current natural).height } ∧
    (getOverlayPosition visibleRect self.floatingToolbox current natural allocation
        self).allocation =
      clampStep visibleRect
        (placeStep self (sizeStep self.floatingToolboxState current natural)).1 ∧
    (getOverlayPosition visibleRect self.floatingToolbox current natural allocation
        self).handled = true ∧
    (getOverlayPosition visibleRect self.floatingToolbox current natural allocation
        self).self.floatingToolboxState = FloatingToolboxState.noChange ∧
    (getOverlayPosition visibleRect self.floatingToolbox current natural allocation
        self).self = { self with floatingToolboxState := FloatingToolboxState.noChange } := by
  rw [getOverlayPosition_managed]
  rcases h with h | h <;> simp [placeStep, h]

/-- The example of C6: container (0, 0, 800, 600), natural size 100 x 40, state
`recalcSize`, anchor (50, 50): before clamping (0, 30, 100, 40), and the same
rectangle is returned. -/
theorem getOverlayPosition_centered_witness :
    (placeStep ⟨7, 50, 50, FloatingToolboxState.recalcSize, true, false, false⟩
        (sizeStep FloatingToolboxState.recalcSize ⟨0, 0, 1, 1⟩ ⟨100, 40⟩)).1
      = ⟨0, 30, 100, 40⟩ ∧
    (getOverlayPosition ⟨0, 0, 800, 600⟩ 7 ⟨0, 0, 1, 1⟩ ⟨100, 40⟩ ⟨0, 0, 0, 0⟩
        ⟨7, 50, 50, FloatingToolboxState.recalcSize, true, false, false⟩).allocation
      = ⟨0, 30, 100, 40⟩ ∧
    (getOverlayPosition ⟨0, 0, 800, 600⟩ 7 ⟨0, 0, 1, 1⟩ ⟨100, 40⟩ ⟨0, 0, 0, 0⟩
        ⟨7, 50, 50, FloatingToolboxState.recalcSize, true, false, false⟩).handled = true ∧
    (getOverlayPosition ⟨0, 0, 800, 600⟩ 7 ⟨0, 0, 1, 1⟩ ⟨100, 40⟩ ⟨0, 0, 0, 0⟩
        ⟨7, 50, 50, FloatingToolboxState.recalcSize, true, false, false⟩).self.floatingToolboxState
      = FloatingToolboxState.noChange := by
  have h := getOverlayPosition_centered ⟨0, 0, 800, 600⟩ ⟨0, 0, 1, 1⟩ ⟨100, 40⟩ ⟨0, 0, 0, 0⟩
    ⟨7, 50, 50, FloatingToolboxState.recalcSize, true, false, false⟩ (Or.inl rfl)
  exact ⟨h.1.trans (by decide), h.2.1.trans (by decide), h.2.2.1, h.2.2.2.1⟩

/-- C7: for the managed widget in state `configuration`, the rectangle before
clamping has its top-left corner at the anchor, width
`max (naturalWidth + 32) 50` and height `max naturalHeight 50`; the returned
rectangle is its clamped form, the call returns `true`, and the object, its
state included, is unchanged. -/
theorem getOverlayPosition_configuration (visibleRect current : GdkRectangle)
    (natural : GtkRequisition) (allocation : GdkRectangle) (self : FloatingToolbox)
    (h : self.floatingToolboxState = FloatingToolboxState.configuration) :
    (placeStep self (sizeStep self.floatingToolboxState current natural)).1 =
      { x := self.floatingToolboxX
        y := self.floatingToolboxY
        width := max (natural.width + 32) 50
        height := max natural.height 50 } ∧
    (getOverlayPosition visibleRect self.floatingToolbox current natural allocation
        self).allocation =
      clampStep visibleRect
        { x := self.floatingToolboxX
          y := self.floatingToolboxY
          width := max (natural.width + 32) 50
          height := max natural.height 50 } ∧
    (getOverlayPosition visibleRect self.floatingToolbox current natural allocation
        self).handled = true ∧
    (getOverlayPosition visibleRect self.floatingToolbox current natural allocation
        self).self.floatingToolboxState = FloatingToolboxState.configuration ∧
    (getOverlayPosition visibleRect self.floatingToolbox current natural allocation
        self).self = self := by
  rw [getOverlayPosition_managed]
  simp [placeStep, sizeStep, h]

/-- The example of C7: container (0, 0, 800, 600), state `configuration`, anchor
(780, 10), natural size 60 x 30: before clamping (780, 10, 92, 50), returned
(708, 10, 92, 50). -/
theorem getOverlayPosition_configuration_witness :
    (placeStep ⟨7, 780, 10, FloatingToolboxState.configuration, true, true, false⟩
        (sizeStep FloatingToolboxState.configuration ⟨0, 0, 1, 1⟩ ⟨60, 30⟩)).1
      = ⟨780, 10, 92, 50⟩ ∧
    (getOverlayPosition ⟨0, 0, 800, 600⟩ 7 ⟨0, 0, 1, 1⟩ ⟨60, 30⟩ ⟨0, 0, 0, 0⟩
        ⟨7, 780, 10, FloatingToolboxState.configuration, true, true, false⟩).allocation
      = ⟨708, 10, 92, 50⟩ ∧
    (getOverlayPosition ⟨0, 0, 800, 600⟩ 7 ⟨0, 0, 1, 1⟩ ⟨60, 30⟩ ⟨0, 0, 0, 0⟩
        ⟨7, 780, 10, FloatingToolboxState.configuration, true, true, false⟩).self.floatingToolboxState
      = FloatingToolboxState.configuration := by
  have h := getOverlayPosition_configuration ⟨0, 0, 800, 600⟩ ⟨0, 0, 1, 1⟩ ⟨60, 30⟩ ⟨0, 0, 0, 0⟩
    ⟨7, 780, 10, FloatingToolboxState.configuration, true, true, false⟩ rfl
  exact ⟨h.1.trans (by decide), h.2.1.trans (by decide), h.2.2.2.1⟩

/-- C8: the size used for placement is the natural size when the state is not
`noChange` or the current height is below 2; when the state is `noChange` and
the current height is at least 2 it is the size of the current allocation, and
the returned width and height are those of the current allocation whatever the
natural size. In both cases the returned rectangle is the clamped placement of
the rectangle of the size step. -/
theorem getOverlayPosition_size_source (visibleRect current : GdkRectangle)
    (natural : GtkRequisition) (allocation : GdkRectangle) (self : FloatingToolbox) :
    (self.floatingToolboxState ≠ FloatingToolboxState.noChange ∨ current.height < 2 →
      (sizeStep self.floatingToolboxState current natural).width = natural.width ∧
      (sizeStep self.floatingToolboxState current natural).height = natural.height) ∧
    (self.floatingToolboxState = FloatingToolboxState.noChange ∧ 2 ≤ current.height →
      (sizeStep self.floatingToolboxState current natural).width = current.width ∧
      (sizeStep self.floatingToolboxState current natural).height = current.height ∧
      (getOverlayPosition visibleRect self.floatingToolbox current natural allocation
        self).allocation.width = current.width ∧
      (getOverlayPosition visibleRect self.floatingToolbox current natural allocation
        self).allocation.height = current.height) ∧
    (getOverlayPosition visibleRect self.floatingToolbox current natural allocation
        self).allocation =
      clampStep visibleRect
        (placeStep self (sizeStep self.floatingToolboxState current natural)).1 := by
  rw [getOverlayPosition_managed]
  refine ⟨?_, ?_, rfl⟩
  · intro h
    simp [sizeStep, h]
  · rintro ⟨hs, hh⟩
    have hn : ¬ current.height < 2 := by omega
    simp [sizeStep, placeStep, hs, hn, clampStep_width, clampStep_height]

/-- Two instances of C8 with the same natural size 100 x 40 and the same current
allocation 64 x 48 in a container (0, 0, 800, 600): in state `noChange` the
returned size is 64 x 48, in state `recalcSize` it is 100 x 40. -/
theorem getOverlayPosition_size_source_witness :
    (getOverlayPosition ⟨0, 0, 800, 600⟩ 7 ⟨5, 5, 64, 48⟩ ⟨100, 40⟩ ⟨0, 0, 0, 0⟩
        ⟨7, 200, 200, FloatingToolboxState.noChange, true, false, false⟩).allocation
      = ⟨168, 176, 64, 48⟩ ∧
    (getOverlayPosition ⟨0, 0, 800, 600⟩ 7 ⟨5, 5, 64, 48⟩ ⟨100, 40⟩ ⟨0, 0, 0, 0⟩
        ⟨7, 200, 200, FloatingToolboxState.recalcSize, true, false, false⟩).allocation
      = ⟨150, 180, 100, 40⟩ ∧
    (getOverlayPosition ⟨0, 0, 800, 600⟩ 7 ⟨5, 5, 64, 48⟩ ⟨100, 40⟩ ⟨0, 0, 0, 0⟩
        ⟨7, 200, 200, FloatingToolboxState.noChange, true, false, false⟩).allocation.width
      = 64 :=
  ⟨by decide, by decide,
    ((getOverlayPosition_size_source ⟨0, 0, 800, 600⟩ ⟨5, 5, 64, 48⟩ ⟨100, 40⟩ ⟨0, 0, 0, 0⟩
      ⟨7, 200, 200, FloatingToolboxState.noChange, true, false, false⟩).2.1
        ⟨rfl, by decide⟩).2.2.1⟩

/-! ## Activation -/

/-- The button loop entered at `id` with `remaining` iterations to go returns
`true` exactly when one of the buttons `id .. id + remaining - 1` has the action
`TOOL_FLOATING_TOOLBOX`. -/
theorem buttonLoop_eq_true_iff (c : Constants) (mw : MainWindow) (remaining : Nat) :
    ∀ id : Nat, buttonLoop c mw id remaining = true ↔
      ∃ k, id ≤ k ∧ k < id + remaining ∧ mw.buttonAction k = c.TOOL_FLOATING_TOOLBOX := by
  induction remaining with
  | zero =>
    intro id
    simp only [buttonLoop, Bool.false_eq_true, false_iff]
    rintro ⟨k, h1, h2, _⟩
    omega
  | succ n ih =>
    intro id
    unfold buttonLoop
    by_cases hid : mw.buttonAction id = c.TOOL_FLOATING_TOOLBOX
    · simp only [hid, if_true, true_iff]
      exact ⟨id, le_refl id, by omega, hid⟩
    · simp only [hid, if_false]
      rw [ih (id + 1)]
      constructor
      · rintro ⟨k, h1, h2, h3⟩
        exact ⟨k, by omega, by omega, h3⟩
      · rintro ⟨k, h1, h2, h3⟩
        have hne : k ≠ id := fun e => hid (e ▸ h3)
        exact ⟨k, by omega, by omega, h3⟩

/-- The total of `countWidgetsLoop` is the running total plus the item counts of
the toolbars `index .. index + remaining - 1`. -/
theorem countWidgetsLoop_eq_sum (mw : MainWindow) (remaining : Nat) :
    ∀ (index : Nat) (count : Int), countWidgetsLoop mw index remaining count =
      count + ((List.range' index remaining).map mw.toolbarItems).sum := by
  induction remaining with
  | zero =>
    intro index count
    simp [countWidgetsLoop]
  | succ n ih =>
    intro index count
    simp only [countWidgetsLoop, List.range'_succ, List.map_cons, List.sum_cons]
    rw [ih (index + 1)]
    omega

/-- C2: `floatingToolboxActivated` returns `true` if and only if some button id
below `BUTTON_COUNT` has the action `TOOL_FLOATING_TOOLBOX`, or both
`getDoActionOnStrokeFiltered` and `getStrokeFilterEnabled` are true, or
`countWidgets` is positive; otherwise it returns `false`. -/
theorem floatingToolboxActivated_iff (c : Constants) (mw : MainWindow) :
    (floatingToolboxActivated c mw = true ↔
      ((∃ id, id < c.BUTTON_COUNT ∧ mw.buttonAction id = c.TOOL_FLOATING_TOOLBOX) ∨
        (mw.doActionOnStrokeFiltered = true ∧ mw.strokeFilterEnabled = true) ∨
        countWidgets c mw > 0)) ∧
    (floatingToolboxActivated c mw = false ↔
      ¬ ((∃ id, id < c.BUTTON_COUNT ∧ mw.buttonAction id = c.TOOL_FLOATING_TOOLBOX) ∨
        (mw.doActionOnStrokeFiltered = true ∧ mw.strokeFilterEnabled = true) ∨
        countWidgets c mw > 0)) := by
  have hb : buttonLoop c mw 0 c.BUTTON_COUNT = true ↔
      ∃ id, id < c.BUTTON_COUNT ∧ mw.buttonAction id = c.TOOL_FLOATING_TOOLBOX := by
    rw [buttonLoop_eq_true_iff]
    constructor
    · rintro ⟨k, _, h2, h3⟩
      exact ⟨k, by omega, h3⟩
    · rintro ⟨k, h2, h3⟩
      exact ⟨k, Nat.zero_le k, by omega, h3⟩
  have key : floatingToolboxActivated c mw = true ↔
      ((∃ id, id < c.BUTTON_COUNT ∧ mw.buttonAction id = c.TOOL_FLOATING_TOOLBOX) ∨
        (mw.doActionOnStrokeFiltered = true ∧ mw.strokeFilterEnabled = true) ∨
        countWidgets c mw > 0) := by
    rw [← hb]
    unfold floatingToolboxActivated
    split_ifs with h1 h2 h3 <;> simp_all
  refine ⟨key, ?_⟩
  rw [← key]
  cases floatingToolboxActivated c mw <;> simp

/-! ## Showing and hiding -/

/-- C3: `hide` called in state `configuration` leaves the state `recalcSize` and
the toolbox hidden. -/
theorem hide_from_configuration (self : FloatingToolbox)
    (h : self.floatingToolboxState = FloatingToolboxState.configuration) :
    self.hide.floatingToolboxState = FloatingToolboxState.recalcSize ∧
    self.hide.toolboxVisible = false := by
  simp [FloatingToolbox.hide, h]

/-- An instance of C3: a visible toolbox in state `configuration`. -/
theorem hide_from_configuration_witness :
    (FloatingToolbox.hide
        ⟨7, 40, 40, FloatingToolboxState.configuration, true, true, false⟩).floatingToolboxState
      = FloatingToolboxState.recalcSize ∧
    (FloatingToolbox.hide
        ⟨7, 40, 40, FloatingToolboxState.configuration, true, true, false⟩).toolboxVisible
      = false :=
  hide_from_configuration ⟨7, 40, 40, FloatingToolboxState.configuration, true, true, false⟩ rfl

/-- C4: when `floatingToolboxActivated` is false, `showForConfiguration` changes
nothing: the state, the anchor and the visibility of the toolbox, of the label
and of the placeholder are what they were. -/
theorem showForConfiguration_not_activated (c : Constants) (mw : MainWindow)
    (translated : Option (Int × Int)) (self : FloatingToolbox)
    (h : floatingToolboxActivated c mw = false) :
    self.showForConfiguration c mw translated = self := by
  simp [FloatingToolbox.showForConfiguration, h]

/-- An instance of C4: no button bound to the toolbox, no tap trigger, empty
toolbars; a hidden toolbox in state `noChange` with anchor (200, 200) stays as
it is. -/
theorem showForConfiguration_not_activated_witness :
    floatingToolboxActivated ⟨7, 21, 3, 4⟩ ⟨fun _ => 0, false, true, fun _ => 0⟩ = false ∧
    FloatingToolbox.showForConfiguration ⟨7, 21, 3, 4⟩ ⟨fun _ => 0, false, true, fun _ => 0⟩
        (some (12, 34)) ⟨7, 200, 200, FloatingToolboxState.noChange, false, true, true⟩
      = ⟨7, 200, 200, FloatingToolboxState.noChange, false, true, true⟩ :=
  ⟨by decide,
    showForConfiguration_not_activated ⟨7, 21, 3, 4⟩ ⟨fun _ => 0, false, true, fun _ => 0⟩
      (some (12, 34)) ⟨7, 200, 200, FloatingToolboxState.noChange, false, true, true⟩
      (by decide)⟩

/-- C5: the leave-notify handler called for the managed widget hides the toolbox
and leaves the state (and everything else) as it is when the state is not
`configuration`; in state `configuration` it changes nothing. -/
theorem handleLeaveFloatingToolbox_managed (self : FloatingToolbox) :
    (self.floatingToolboxState ≠ FloatingToolboxState.configuration →
      (handleLeaveFloatingToolbox self.floatingToolbox self).toolboxVisible = false ∧
      (handleLeaveFloatingToolbox self.floatingToolbox self).floatingToolboxState
        = self.floatingToolboxState ∧
      handleLeaveFloatingToolbox self.floatingToolbox self
        = { self with toolboxVisible := false }) ∧
    (self.floatingToolboxState = FloatingToolboxState.configuration →
      handleLeaveFloatingToolbox self.floatingToolbox self = self) := by
  constructor
  · intro h
    simp [handleLeaveFloatingToolbox, FloatingToolbox.hide, h]
  · intro h
    simp [handleLeaveFloatingToolbox, h]

/-- Two instances of C5: a visible toolbox in state `noChange` is hidden and
stays in `noChange`; a visible toolbox in state `configuration` is untouched. -/
theorem handleLeaveFloatingToolbox_managed_witness :
    handleLeaveFloatingToolbox 7 ⟨7, 200, 200, FloatingToolboxState.noChange, true, false, false⟩
      = ⟨7, 200, 200, FloatingToolboxState.noChange, false, false, false⟩ ∧
    handleLeaveFloatingToolbox 7
        ⟨7, 40, 40, FloatingToolboxState.configuration, true, true, false⟩
      = ⟨7, 40, 40, FloatingToolboxState.configuration, true, true, false⟩ :=
  ⟨((handleLeaveFloatingToolbox_managed
      ⟨7, 200, 200, FloatingToolboxState.noChange, true, false, false⟩).1 (by decide)).2.2,
    (handleLeaveFloatingToolbox_managed
      ⟨7, 40, 40, FloatingToolboxState.configuration, true, true, false⟩).2 rfl⟩
